import Mathlib

/-!
# Verification of the kgp pod-report transform

This file is a shallow embedding of the three Python source files of the
`kgp` repository (`process_pods.py`, `process_containers.py`,
`generate_cache_files.py`) together with proofs about the embedded
functions.

Modelling conventions:

* JSON dictionaries become structures whose fields are `Option`-typed when
  the key may be absent.  Accesses written `d.get(k, default)` in the
  source become `Option.getD`; accesses written `d[k]` (which raise
  `KeyError` when the key is absent) make the embedding of the enclosing
  function return `Option`, with `none` standing for the uncaught
  exception.
* ISO-8601 timestamps are abstracted to integers (seconds since an
  arbitrary epoch); `datetime` subtraction becomes integer subtraction,
  and the single `datetime.now(timezone.utc)` reference of a run is an
  explicit `now : Int` parameter.  Fractional seconds are not modelled.
* A container `state` dictionary may, as JSON, carry any combination of
  the keys `running` / `waiting` / `terminated`; the structure
  `ContainerState` therefore has three independent `Option` fields.
  Python's `k in state` is `Option.isSome` of the field; Python's
  truthiness test `state.get(k)` (false for an *empty* dictionary) is the
  `truthy` predicate of the field's value, where the `extraKeys` flag
  records that the dictionary holds keys beyond the ones modelled.
* Python dictionary comprehensions `{s["name"]: s for s in l}` become an
  association list built by `buildStatusMap` (failing like the
  comprehension does when a `name` key is absent); lookup is last-wins,
  like dictionary insertion order.

Namespaces `PP`, `PC` and `GC` hold the embeddings of `process_pods.py`,
`process_containers.py` and `generate_cache_files.py` respectively;
definition names follow the Python function names.
-/

namespace Kgp

/-- Python's `str(b).lower()` for a boolean `b`. -/
def pyBoolStr (b : Bool) : String :=
  if b then "true" else "false"

/-- Substring test on character lists: `needle` occurs somewhere in `hay`. -/
def listContainsSub (needle : List Char) : List Char → Bool
  | [] => needle.isPrefixOf []
  | c :: t => needle.isPrefixOf (c :: t) || listContainsSub needle t

/-- Python's `needle in hay` for strings (substring containment). -/
def pyInStr (needle hay : String) : Bool :=
  listContainsSub needle.data hay.data

/-- The value of a `running` key of a container `state` dictionary.  The
source never reads any field of it, only its truthiness, so only
"dictionary is non-empty" is recorded. -/
structure RunningState where
  nonempty : Bool
deriving DecidableEq

/-- The value of a `waiting` key of a container `state` dictionary. -/
structure WaitingState where
  reason : Option String
  extraKeys : Bool
deriving DecidableEq

/-- The value of a `terminated` key of a container `state` dictionary. -/
structure TerminatedState where
  reason : Option String
  exitCode : Option Int
  extraKeys : Bool
deriving DecidableEq

/-- Python truthiness of the `running` dictionary. -/
def RunningState.truthy (r : RunningState) : Bool := r.nonempty

/-- Python truthiness of the `waiting` dictionary. -/
def WaitingState.truthy (w : WaitingState) : Bool :=
  w.reason.isSome || w.extraKeys

/-- Python truthiness of the `terminated` dictionary. -/
def TerminatedState.truthy (t : TerminatedState) : Bool :=
  t.reason.isSome || t.exitCode.isSome || t.extraKeys

/-- A container `state` dictionary: any combination of the three keys may
be present, mirroring the JSON shape the Python code operates on. -/
structure ContainerState where
  running : Option RunningState
  waiting : Option WaitingState
  terminated : Option TerminatedState
deriving DecidableEq

/-- The empty `state` dictionary (`{}`), default of `.get("state", {})`. -/
def ContainerState.empty : ContainerState := ⟨none, none, none⟩

/-- Truthiness of `state.get("running")`. -/
def ContainerState.runningTruthy (s : ContainerState) : Bool :=
  match s.running with
  | some r => r.truthy
  | none => false

/-- Truthiness of `state.get("waiting")`. -/
def ContainerState.waitingTruthy (s : ContainerState) : Bool :=
  match s.waiting with
  | some w => w.truthy
  | none => false

/-- Truthiness of `state.get("terminated")`. -/
def ContainerState.terminatedTruthy (s : ContainerState) : Bool :=
  match s.terminated with
  | some t => t.truthy
  | none => false

/-- Value of `state["waiting"].get("reason")` when present. -/
def ContainerState.waitingReason (s : ContainerState) : Option String :=
  s.waiting.bind (fun w => w.reason)

/-- Value of `state["terminated"].get("reason")` when present. -/
def ContainerState.terminatedReason (s : ContainerState) : Option String :=
  s.terminated.bind (fun t => t.reason)

/-- A pod's `metadata` dictionary. -/
structure Metadata where
  name : Option String
  creationTimestamp : Option Int
  deletionTimestamp : Option Int
deriving DecidableEq

/-- One entry of `spec.initContainers` / `spec.containers`.  The code only
reads `name` and `image`, both by direct (`KeyError`-raising) indexing. -/
structure ContainerSpec where
  name : Option String
  image : Option String
deriving DecidableEq

/-- One entry of `status.initContainerStatuses` / `status.containerStatuses`.
`ready` and `restartCount` are only read with `.get(_, False)` /
`.get(_, 0)`, so their absence is identified with the default. -/
structure ContainerStatus where
  name : Option String
  ready : Bool
  restartCount : Int
  state : Option ContainerState
deriving DecidableEq

/-- Python's `status.get("state", {})`. -/
def ContainerStatus.stateD (c : ContainerStatus) : ContainerState :=
  c.state.getD ContainerState.empty

/-- A pod's `status` dictionary.  The status lists are only read with
`.get(_, [])`, so their absence is identified with the empty list. -/
structure PodStatus where
  phase : Option String
  startTime : Option Int
  initContainerStatuses : List ContainerStatus
  containerStatuses : List ContainerStatus
deriving DecidableEq

/-- The empty `status` dictionary. -/
def PodStatus.empty : PodStatus := ⟨none, none, [], []⟩

/-- A pod's `spec` dictionary; the container lists are read with
`.get(_, [])`. -/
structure PodSpec where
  initContainers : List ContainerSpec
  containers : List ContainerSpec
deriving DecidableEq

/-- The empty `spec` dictionary. -/
def PodSpec.empty : PodSpec := ⟨[], []⟩

/-- One entry of the top-level `items` array. -/
structure Pod where
  metadata : Option Metadata
  spec : Option PodSpec
  status : Option PodStatus
deriving DecidableEq

/-- Python's `pod.get("metadata", {})`. -/
def Pod.metadataD (p : Pod) : Metadata :=
  p.metadata.getD ⟨none, none, none⟩

/-- Python's `pod.get("spec", {})`. -/
def Pod.specD (p : Pod) : PodSpec :=
  p.spec.getD PodSpec.empty

/-- Python's `pod.get("status", {})`. -/
def Pod.statusD (p : Pod) : PodStatus :=
  p.status.getD PodStatus.empty

/-- The decoded top-level document; `data.get("items", [])`. -/
structure PodList where
  items : List Pod
deriving DecidableEq

/-- Python's `{s["name"]: s for s in l}`: fails (KeyError) when a status
lacks the `name` key, otherwise yields the association list in insertion
order. -/
def buildStatusMap : List ContainerStatus → Option (List (String × ContainerStatus))
  | [] => some []
  | s :: rest => do
    let n ← s.name
    let m ← buildStatusMap rest
    pure ((n, s) :: m)

/-- Dictionary lookup on the association list produced by
`buildStatusMap`: later insertions overwrite earlier ones, so the last
binding of a key wins. -/
def dictGet (m : List (String × ContainerStatus)) (n : String) : Option ContainerStatus :=
  List.lookup n m.reverse

namespace PP

/-- Embedding of `format_duration` from `process_pods.py` (seconds as an
integer; the guard maps every negative duration to `"0s"`). -/
def format_duration (seconds : Int) : String :=
  if seconds < 0 then "0s"
  else if seconds < 60 then toString seconds ++ "s"
  else if seconds < 3600 then
    toString (seconds / 60) ++ "m" ++ toString (seconds % 60) ++ "s"
  else if seconds < 86400 then
    toString (seconds / 3600) ++ "h" ++ toString (seconds % 3600 / 60) ++ "m"
  else
    toString (seconds / 86400) ++ "d" ++ toString (seconds % 86400 / 3600) ++ "h"

/-- The init-container loop of `get_pod_status` in `process_pods.py`;
`some s` is an early `return s`, `none` is falling off the loop.  `total`
is `len(init_containers)` and `i` the `enumerate` index. -/
def initLoop (total : Nat) : Nat → List ContainerStatus → Option String
  | _, [] => none
  | i, c :: rest =>
    let state := c.stateD
    match state.waiting with
    | some w =>
      let reason := w.reason.getD "PodInitializing"
      if reason == "PodInitializing" then
        some ("Init:" ++ toString i ++ "/" ++ toString total)
      else
        some ("Init:" ++ reason)
    | none =>
      match state.terminated with
      | some t =>
        let reason := t.reason.getD "Error"
        if reason != "Completed" then some ("Init:" ++ reason)
        else initLoop total (i + 1) rest
      | none => initLoop total (i + 1) rest

/-- The regular-container loop of `get_pod_status` in `process_pods.py`
(the `running` / `waiting` / `terminated` counters of the source are never
read afterwards and are dropped; the `ready` counter is recomputed by the
caller since the loop result is only consumed after a full pass). -/
def regLoop : List ContainerStatus → Option String
  | [] => none
  | c :: rest =>
    let state := c.stateD
    if state.running.isSome then regLoop rest
    else match state.waiting with
      | some w =>
        match w.reason with
        | some r => if r != "" then some r else regLoop rest
        | none => regLoop rest
      | none =>
        match state.terminated with
        | some t =>
          let reason := t.reason.getD "Error"
          let exitCode := t.exitCode.getD 1
          if exitCode != 0 then some reason else regLoop rest
        | none => regLoop rest

/-- Embedding of `get_pod_status` from `process_pods.py`. -/
def get_pod_status (pod : Pod) : String :=
  let status := pod.statusD
  let phase := status.phase.getD "Unknown"
  if (pod.metadataD).deletionTimestamp.isSome then "Terminating"
  else
    let inits := status.initContainerStatuses
    match initLoop inits.length 0 inits with
    | some s => s
    | none =>
      let cs := status.containerStatuses
      if cs.isEmpty && phase == "Pending" then "Pending"
      else
        let ready := cs.countP (fun c => c.ready)
        match regLoop cs with
        | some s => s
        | none =>
          if phase == "Running" then
            if ready == cs.length then "Running" else "NotReady"
          else if phase == "Succeeded" then "Completed"
          else if phase == "Failed" then "Error"
          else phase

/-- Embedding of `get_ready_count` from `process_pods.py`. -/
def get_ready_count (pod : Pod) : Nat :=
  (pod.statusD.initContainerStatuses.countP (fun c =>
      match c.stateD.terminated with
      | some t => t.reason == some "Completed"
      | none => false))
  + (pod.statusD.containerStatuses.countP (fun c => c.ready))

/-- Embedding of `get_total_containers` from `process_pods.py`. -/
def get_total_containers (pod : Pod) : Nat :=
  pod.specD.initContainers.length + pod.specD.containers.length

/-- Embedding of `get_restart_count` from `process_pods.py`. -/
def get_restart_count (pod : Pod) : Int :=
  (pod.statusD.containerStatuses.map (fun c => c.restartCount)).sum

/-- Embedding of `get_age` from `process_pods.py`.  `now` is the
`datetime.now(timezone.utc)` reference. -/
def get_age (pod : Pod) (now : Int) : String :=
  let metadata := pod.metadataD
  let status := pod.statusD
  let ageSeconds : Int :=
    match metadata.deletionTimestamp with
    | some d =>
      match status.startTime <|> metadata.creationTimestamp with
      | some s => d - s
      | none => 0
    | none =>
      match metadata.creationTimestamp with
      | some c => now - c
      | none => 0
  format_duration ageSeconds

/-- One line of the output of `process_pods` from `process_pods.py`. -/
def podLine (pod : Pod) (now : Int) : String :=
  let name := (pod.metadataD).name.getD "unknown"
  let ready_display :=
    toString (get_ready_count pod) ++ "/" ++ toString (get_total_containers pod)
  let status := get_pod_status pod
  let restarts := get_restart_count pod
  let age := get_age pod now
  name ++ "\t" ++ ready_display ++ "\t" ++ status ++ "\t" ++ toString restarts ++ "\t" ++ age

/-- Embedding of `process_pods` from `process_pods.py` (the `"\n".join` of
the per-pod lines). -/
def process_pods (data : PodList) (now : Int) : String :=
  String.intercalate "\n" (data.items.map (fun p => podLine p now))

end PP

namespace PC

/-- Embedding of `get_container_state_info` from `process_containers.py`
(truthiness tests on the three variant dictionaries, first match wins). -/
def get_container_state_info (state : ContainerState) : String × String :=
  if state.runningTruthy then ("true", "Running")
  else if state.waitingTruthy then
    ("false", (state.waitingReason).getD "Waiting")
  else if state.terminatedTruthy then
    let reason := (state.terminatedReason).getD "Terminated"
    if reason == "Completed" then ("true", "Completed")
    else if reason == "Error" then ("false", "Error")
    else ("false", reason)
  else ("false", "Unknown")

/-- The init-container readiness override of `process_init_containers` in
`process_containers.py`: when `status["state"]["terminated"]` is truthy the
readiness computed by `get_container_state_info` is replaced by the
termination-reason test, otherwise it is kept. -/
def init_ready (state : ContainerState) : String :=
  let base := (get_container_state_info state).1
  match state.terminated with
  | some t =>
    if t.truthy then
      if t.reason == some "Completed" then "true" else "false"
    else base
  | none => base

/-- The loop body of `process_init_containers` in `process_containers.py`:
walks the `spec.initContainers` list, skipping containers without a status
entry, and fails (KeyError, `none`) when a spec container lacks `name`, or
a matched one lacks `image`. -/
def initLoopRows (pname : String) (smap : List (String × ContainerStatus)) :
    List ContainerSpec → Option (List (List String))
  | [] => some []
  | c :: rest => do
    let cname ← c.name
    match dictGet smap cname with
    | none => initLoopRows pname smap rest
    | some st => do
      let ready := init_ready st.stateD
      let state_desc := (get_container_state_info st.stateD).2
      let img ← c.image
      let rows ← initLoopRows pname smap rest
      pure ([pname, cname, "init", ready, state_desc, img] :: rows)

/-- Embedding of `process_init_containers` from `process_containers.py`.
`none` models an uncaught `KeyError` (`pod["metadata"]["name"]`, a status
or spec container without `name`, a matched spec container without
`image`). -/
def process_init_containers (pod : Pod) : Option (List (List String)) := do
  let md ← pod.metadata
  let pname ← md.name
  let smap ← buildStatusMap pod.statusD.initContainerStatuses
  initLoopRows pname smap pod.specD.initContainers

/-- The loop body of `process_regular_containers` in
`process_containers.py`: readiness is `str(status.get("ready", False)).lower()`,
the state label comes from `get_container_state_info`. -/
def regLoopRows (pname : String) (smap : List (String × ContainerStatus)) :
    List ContainerSpec → Option (List (List String))
  | [] => some []
  | c :: rest => do
    let cname ← c.name
    match dictGet smap cname with
    | none => regLoopRows pname smap rest
    | some st => do
      let ready := pyBoolStr st.ready
      let state_desc := (get_container_state_info st.stateD).2
      let img ← c.image
      let rows ← regLoopRows pname smap rest
      pure ([pname, cname, "container", ready, state_desc, img] :: rows)

/-- Embedding of `process_regular_containers` from `process_containers.py`. -/
def process_regular_containers (pod : Pod) : Option (List (List String)) := do
  let md ← pod.metadata
  let pname ← md.name
  let smap ← buildStatusMap pod.statusD.containerStatuses
  regLoopRows pname smap pod.specD.containers

end PC

namespace GC

/-- The ANSI escape sequence of each entry of the `COLORS` table of
`generate_cache_files.py`. -/
def COLORS (c : String) : String :=
  if c == "RED" then "\x1b[91m"
  else if c == "GREEN" then "\x1b[92m"
  else if c == "YELLOW" then "\x1b[93m"
  else if c == "BLUE" then "\x1b[94m"
  else if c == "CYAN" then "\x1b[96m"
  else if c == "WHITE" then "\x1b[97m"
  else if c == "GRAY" then "\x1b[90m"
  else "\x1b[0m"

/-- Embedding of `colorize` from `generate_cache_files.py`. -/
def colorize (color text : String) : String :=
  COLORS color ++ text ++ COLORS "RESET"

/-- Embedding of `colorize_entire_row` from `generate_cache_files.py`. -/
def colorize_entire_row (color : String) (row : List String) : List String :=
  row.map (fun cell => COLORS color ++ cell ++ COLORS "RESET")

/-- Embedding of `format_duration` from `generate_cache_files.py` (note:
unlike the `process_pods.py` variant it has no guard for negative input,
so a negative duration falls into the first branch and is rendered with
its sign). -/
def format_duration (seconds : Int) : String :=
  if seconds < 60 then toString seconds ++ "s"
  else if seconds < 3600 then
    toString (seconds / 60) ++ "m" ++ toString (seconds % 60) ++ "s"
  else if seconds < 86400 then
    toString (seconds / 3600) ++ "h" ++ toString (seconds % 3600 / 60) ++ "m"
  else
    toString (seconds / 86400) ++ "d" ++ toString (seconds % 86400 / 3600) ++ "h"

/-- Embedding of `get_container_state_info` from
`generate_cache_files.py`. -/
def get_container_state_info (state : ContainerState) : String × String :=
  if state.runningTruthy then ("true", "Running")
  else if state.waitingTruthy then
    ("false", (state.waitingReason).getD "Waiting")
  else if state.terminatedTruthy then
    let reason := (state.terminatedReason).getD "Terminated"
    (if reason == "Completed" then "true" else "false", reason)
  else ("false", "Unknown")

/-- The init-container loop of `get_pod_status` in
`generate_cache_files.py` (identical in effect to the `process_pods.py`
one; written following its own source text). -/
def initLoop (total : Nat) : Nat → List ContainerStatus → Option String
  | _, [] => none
  | i, c :: rest =>
    let state := c.stateD
    match state.waiting with
    | some w =>
      let reason := w.reason.getD "PodInitializing"
      some (if reason == "PodInitializing" then
              "Init:" ++ toString i ++ "/" ++ toString total
            else "Init:" ++ reason)
    | none =>
      match state.terminated with
      | some t =>
        if t.reason != some "Completed" then
          some ("Init:" ++ t.reason.getD "Error")
        else initLoop total (i + 1) rest
      | none => initLoop total (i + 1) rest

/-- The regular-container loop of `get_pod_status` in
`generate_cache_files.py` (no `running` branch, unlike the
`process_pods.py` variant). -/
def regLoop : List ContainerStatus → Option String
  | [] => none
  | c :: rest =>
    let state := c.stateD
    match state.waiting with
    | some w =>
      match w.reason with
      | some r => if r != "" then some r else regLoop rest
      | none => regLoop rest
    | none =>
      match state.terminated with
      | some t =>
        let reason := t.reason.getD "Error"
        if t.exitCode.getD 1 != 0 then some reason else regLoop rest
      | none => regLoop rest

/-- Embedding of `get_pod_status` from `generate_cache_files.py`. -/
def get_pod_status (pod : Pod) : String :=
  let status := pod.statusD
  let phase := status.phase.getD "Unknown"
  if (pod.metadataD).deletionTimestamp.isSome then "Terminating"
  else
    let inits := status.initContainerStatuses
    match initLoop inits.length 0 inits with
    | some s => s
    | none =>
      let cs := status.containerStatuses
      let ready := cs.countP (fun c => c.ready)
      match regLoop cs with
      | some s => s
      | none =>
        if phase == "Running" then
          if ready == cs.length then "Running" else "NotReady"
        else if phase == "Succeeded" then "Completed"
        else if phase == "Failed" then "Error"
        else phase

/-- Embedding of `get_pod_age` from `generate_cache_files.py`: always the
distance from `creationTimestamp` to `now`, with no case for
`deletionTimestamp`. -/
def get_pod_age (pod : Pod) (now : Int) : String :=
  match (pod.metadataD).creationTimestamp with
  | some c => format_duration (now - c)
  | none => "0s"

/-- Embedding of `get_row_color_for_pod_status` from
`generate_cache_files.py` (substring tests; note the RED list has no
`OOMKilled`). -/
def get_row_color_for_pod_status (status : String) : Option String :=
  if pyInStr "Error" status || pyInStr "Failed" status
      || pyInStr "CrashLoopBackOff" status then some "RED"
  else if pyInStr "Completed" status || pyInStr "Terminated" status
      || pyInStr "Succeeded" status then some "GRAY"
  else none

/-- Embedding of `get_row_color_for_container_status` from
`generate_cache_files.py` (exact membership tests; note the RED list has
no `Failed` and the GRAY list no `Succeeded`). -/
def get_row_color_for_container_status (status : String) : Option String :=
  if status == "Error" || status == "CrashLoopBackOff" || status == "OOMKilled" then
    some "RED"
  else if status == "Completed" || status == "Terminated" then some "GRAY"
  else none

/-- The ready-count loop of `process_pods` in `generate_cache_files.py`
(completed init containers plus ready regular containers). -/
def readyCountOf (pod : Pod) : Nat :=
  (pod.statusD.initContainerStatuses.countP (fun c =>
      match c.stateD.terminated with
      | some t => t.reason == some "Completed"
      | none => false))
  + (pod.statusD.containerStatuses.countP (fun c => c.ready))

/-- One row of `process_pods` in `generate_cache_files.py`, colors
included. -/
def podRow (pod : Pod) (now : Int) : List String :=
  let name := (pod.metadataD).name.getD "unknown"
  let total := pod.specD.initContainers.length + pod.specD.containers.length
  let ready_count := readyCountOf pod
  let ready_display := toString ready_count ++ "/" ++ toString total
  let pod_status := get_pod_status pod
  let restarts : Int := (pod.statusD.containerStatuses.map (fun c => c.restartCount)).sum
  let age := get_pod_age pod now
  let row_data := [name, ready_display, pod_status, toString restarts, age]
  match get_row_color_for_pod_status pod_status with
  | some color => colorize_entire_row color row_data
  | none =>
    [colorize "WHITE" name,
     colorize (if ready_count == total && decide (0 < total) then "GREEN" else "YELLOW")
       ready_display,
     colorize (if pod_status == "Running" then "GREEN" else "YELLOW") pod_status,
     colorize (if 0 < restarts then "YELLOW" else "WHITE") (toString restarts),
     age]

/-- Embedding of `process_pods` from `generate_cache_files.py` (the list
of colored rows handed to `tabulate`). -/
def process_pods (data : PodList) (now : Int) : List (List String) :=
  data.items.map (fun p => podRow p now)

/-- The init-container readiness override of `process_containers` in
`generate_cache_files.py`: only overrides *to* `"true"`, and only when
`state.get("terminated", {}).get("reason")` equals `"Completed"`. -/
def init_ready (state : ContainerState) : String :=
  let base := (get_container_state_info state).1
  if state.terminatedReason == some "Completed" then "true" else base

/-- The uncolored `row_data` of a regular-container row of
`process_containers` in `generate_cache_files.py`. -/
def regRowData (pname cname img : String) (st : ContainerStatus) : List String :=
  [pname, cname, pyBoolStr st.ready, (get_container_state_info st.stateD).2, img]

/-- The colored row emitted for one matched init container by
`process_containers` in `generate_cache_files.py`. -/
def initRowColored (pname cname img : String) (st : ContainerStatus) : List String :=
  let ready := init_ready st.stateD
  let state_desc := (get_container_state_info st.stateD).2
  let row_data := [pname, cname, ready, state_desc, img]
  match get_row_color_for_container_status state_desc with
  | some color => colorize_entire_row color row_data
  | none =>
    [colorize "WHITE" pname,
     colorize "WHITE" cname,
     colorize (if ready.toLower == "true" then "GREEN" else "RED") ready,
     colorize (if state_desc == "Running" then "GREEN" else "YELLOW") state_desc,
     colorize "GRAY" img]

/-- The colored row emitted for one matched regular container by
`process_containers` in `generate_cache_files.py`. -/
def regRowColored (pname cname img : String) (st : ContainerStatus) : List String :=
  let row_data := regRowData pname cname img st
  let state_desc := (get_container_state_info st.stateD).2
  match get_row_color_for_container_status state_desc with
  | some color => colorize_entire_row color row_data
  | none =>
    [colorize "WHITE" pname,
     colorize "WHITE" cname,
     colorize (if pyBoolStr st.ready == "true" then "GREEN" else "RED") (pyBoolStr st.ready),
     colorize (if state_desc == "Running" then "GREEN" else "YELLOW") state_desc,
     colorize "GRAY" img]

/-- The init-container loop of `process_containers` in
`generate_cache_files.py`. -/
def initContainersLoop (pname : String) (smap : List (String × ContainerStatus)) :
    List ContainerSpec → Option (List (List String))
  | [] => some []
  | c :: rest => do
    let cname ← c.name
    match dictGet smap cname with
    | none => initContainersLoop pname smap rest
    | some st => do
      let img ← c.image
      let rows ← initContainersLoop pname smap rest
      pure (initRowColored pname cname img st :: rows)

/-- The regular-container loop of `process_containers` in
`generate_cache_files.py`. -/
def regContainersLoop (pname : String) (smap : List (String × ContainerStatus)) :
    List ContainerSpec → Option (List (List String))
  | [] => some []
  | c :: rest => do
    let cname ← c.name
    match dictGet smap cname with
    | none => regContainersLoop pname smap rest
    | some st => do
      let img ← c.image
      let rows ← regContainersLoop pname smap rest
      pure (regRowColored pname cname img st :: rows)

/-- The per-pod body of `process_containers` in
`generate_cache_files.py`. -/
def podContainers (pod : Pod) : Option (List (List String)) := do
  let pname := (pod.metadataD).name.getD "unknown"
  let ismap ← buildStatusMap pod.statusD.initContainerStatuses
  let irows ← initContainersLoop pname ismap pod.specD.initContainers
  let csmap ← buildStatusMap pod.statusD.containerStatuses
  let crows ← regContainersLoop pname csmap pod.specD.containers
  pure (irows ++ crows)

/-- Embedding of `process_containers` from `generate_cache_files.py`. -/
def process_containers (data : PodList) : Option (List (List String)) :=
  (data.items.mapM podContainers).map List.flatten

end GC

/-- A pod whose record lacks `metadata` but has a fully populated init
container: `process_containers.py` raises `KeyError` on it. -/
def cexPodNoMetadata : Pod :=
  ⟨none,
   some ⟨[⟨some "ic", some "img"⟩], []⟩,
   some ⟨none, none, [⟨some "ic", false, 0,
     some ⟨none, none, some ⟨some "Completed", some 0, false⟩⟩⟩], []⟩⟩

/-- A pod with one init container whose state is Running (a non-empty
`running` dictionary). -/
def cexPodRunningInit : Pod :=
  ⟨some ⟨some "p", none, none⟩,
   some ⟨[⟨some "ic", some "img"⟩], []⟩,
   some ⟨none, none, [⟨some "ic", false, 0,
     some ⟨some ⟨true⟩, none, none⟩⟩], []⟩⟩

/-- A deletion-marked pod created at 0, started at 0, deleted at 100. -/
def cexPodDeleted : Pod :=
  ⟨some ⟨some "p", some 0, some 100⟩,
   none,
   some ⟨none, some 0, [], []⟩⟩

/-- A document whose single pod carries a deletion marker. -/
def cexDataDeleted : PodList := ⟨[cexPodDeleted]⟩

/-- A pod with no spec containers but one ready regular-container status:
its ready count exceeds its spec-derived total. -/
def cexPodOverReported : Pod :=
  ⟨none, none,
   some ⟨none, none, [], [⟨some "c", true, 0, none⟩]⟩⟩

/-- A pod with phase Running whose single container status populates both
the `running` and the `waiting` variants of its state. -/
def cexPodTwoVariants : Pod :=
  ⟨none, none,
   some ⟨some "Running", none, [],
     [⟨some "c", false, 0,
       some ⟨some ⟨true⟩, some ⟨some "ImagePullBackOff", false⟩, none⟩⟩]⟩⟩

/-- A pod with one regular container whose status has readiness flag true
but a Waiting state. -/
def cexPodReadyWaiting : Pod :=
  ⟨some ⟨some "p", none, none⟩,
   some ⟨[], [⟨some "c", some "img"⟩]⟩,
   some ⟨none, none, [],
     [⟨some "c", true, 0, some ⟨none, some ⟨some "ImagePullBackOff", false⟩, none⟩⟩]⟩⟩

/-- A pod with a container status entry lacking its `name` key. -/
def cexPodStatusNoName : Pod :=
  ⟨some ⟨some "p", none, none⟩,
   some ⟨[], [⟨some "c", some "img"⟩]⟩,
   some ⟨none, none, [], [⟨none, true, 0, none⟩]⟩⟩

/-- A pod whose matched regular container spec lacks its `image` key. -/
def cexPodSpecNoImage : Pod :=
  ⟨some ⟨some "p", none, none⟩,
   some ⟨[], [⟨some "c", none⟩]⟩,
   some ⟨none, none, [], [⟨some "c", true, 0, none⟩]⟩⟩

/-- A container state populating at most one of the three variant keys,
the shape every real Kubernetes document has (the data model of the spec:
"exactly one variant is populated; absence of all three is treated as
Unknown"). -/
def WellFormedState (s : ContainerState) : Prop :=
  (s.running.isSome = true → s.waiting = none ∧ s.terminated = none) ∧
  (s.waiting.isSome = true → s.terminated = none)

/-- C9: a deletion marker forces status `"Terminating"` in both
`get_pod_status` variants, whatever the phase and container states. -/
theorem c9_deletion_marker_terminating (pod : Pod)
    (h : (pod.metadataD).deletionTimestamp.isSome = true) :
    PP.get_pod_status pod = "Terminating" ∧ GC.get_pod_status pod = "Terminating" := by
  constructor
  · simp [PP.get_pod_status, h]
  · simp [GC.get_pod_status, h]

theorem c9_deletion_marker_terminating_witness :
    PP.get_pod_status cexPodDeleted = "Terminating" ∧
    GC.get_pod_status cexPodDeleted = "Terminating" :=
  c9_deletion_marker_terminating cexPodDeleted (by decide)

/-- C7 counterexample: the `format_duration` of `generate_cache_files.py`
does not treat a negative duration as zero; `-5` is rendered `"-5s"`. -/
theorem c7_negative_duration_counterexample :
    Kgp.GC.format_duration (-5) ≠ "0s" ∧ Kgp.GC.format_duration (-5) = "-5s" := by
  decide

/-- C7 amended: the banded formatting and the floor-truncated components
hold in both variants, and they agree on every non-negative duration; but
only the `process_pods.py` variant maps negative durations to `"0s"`,
while the `generate_cache_files.py` variant renders them with their
sign. -/
theorem c7_format_duration_amended (s : Int) :
    (s < 0 → PP.format_duration s = "0s" ∧ GC.format_duration s = toString s ++ "s") ∧
    (0 ≤ s → PP.format_duration s = GC.format_duration s) ∧
    (0 ≤ s → s < 60 → GC.format_duration s = toString s ++ "s") ∧
    (60 ≤ s → s < 3600 →
      GC.format_duration s = toString (s / 60) ++ "m" ++ toString (s % 60) ++ "s") ∧
    (3600 ≤ s → s < 86400 →
      GC.format_duration s = toString (s / 3600) ++ "h" ++ toString (s % 3600 / 60) ++ "m") ∧
    (86400 ≤ s →
      GC.format_duration s = toString (s / 86400) ++ "d" ++ toString (s % 86400 / 3600) ++ "h") := by
  refine ⟨fun h => ⟨?_, ?_⟩, fun h => ?_, fun h1 h2 => ?_, fun h1 h2 => ?_,
    fun h1 h2 => ?_, fun h1 => ?_⟩
  · simp [PP.format_duration, h]
  · have h60 : s < 60 := by omega
    simp [GC.format_duration, h60]
  · have hn : ¬ s < 0 := by omega
    unfold PP.format_duration GC.format_duration
    rw [if_neg hn]
  · simp [GC.format_duration, h2]
  · have hn : ¬ s < 60 := by omega
    simp [GC.format_duration, hn, h2]
  · have hn : ¬ s < 60 := by omega
    have hn' : ¬ s < 3600 := by omega
    simp [GC.format_duration, hn, hn', h2]
  · have hn : ¬ s < 60 := by omega
    have hn' : ¬ s < 3600 := by omega
    have hn'' : ¬ s < 86400 := by omega
    simp [GC.format_duration, hn, hn', hn'']

theorem c7_format_duration_witness :
    PP.format_duration (-7) = "0s" ∧ GC.format_duration (-7) = "-7s" ∧
    PP.format_duration 125 = GC.format_duration 125 ∧
    GC.format_duration 45 = "45s" ∧ GC.format_duration 125 = "2m5s" ∧
    GC.format_duration 7500 = "2h5m" ∧ GC.format_duration 100000 = "1d3h" := by
  have h1 := (c7_format_duration_amended (-7)).1 (by decide)
  have h2 := (c7_format_duration_amended 125).2.1 (by decide)
  have h3 := (c7_format_duration_amended 45).2.2.1 (by decide) (by decide)
  have h4 := (c7_format_duration_amended 125).2.2.2.1 (by decide) (by decide)
  have h5 := (c7_format_duration_amended 7500).2.2.2.2.1 (by decide) (by decide)
  have h6 := (c7_format_duration_amended 100000).2.2.2.2.2 (by decide)
  exact ⟨h1.1, h1.2.trans (by decide), h2, h3.trans (by decide), h4.trans (by decide),
    h5.trans (by decide), h6.trans (by decide)⟩

/-- C6 counterexample: a pod status `"OOMKilled"` is not colored RED (the
pod RED list lacks `OOMKilled`), a container state `"Failed"` is not
colored RED (the container RED list lacks `Failed`), and a container state
`"Succeeded"` is not colored GRAY (the container GRAY list lacks
`Succeeded`). -/
theorem c6_row_color_counterexample :
    GC.get_row_color_for_pod_status "OOMKilled" = none ∧
    GC.get_row_color_for_container_status "Failed" = none ∧
    GC.get_row_color_for_container_status "Succeeded" = none := by
  decide

/-- C6 amended: the two tables use different rules.  Pod rows are RED
exactly when the status contains `Error`, `Failed` or `CrashLoopBackOff`
as a substring and GRAY exactly when it is not RED and contains
`Completed`, `Terminated` or `Succeeded`; container rows are RED exactly
when the state label *equals* `Error`, `CrashLoopBackOff` or `OOMKilled`
and GRAY exactly when it equals `Completed` or `Terminated`. -/
theorem c6_row_color_amended (s : String) :
    (GC.get_row_color_for_pod_status s = some "RED" ↔
      (pyInStr "Error" s || pyInStr "Failed" s || pyInStr "CrashLoopBackOff" s) = true) ∧
    (GC.get_row_color_for_pod_status s = some "GRAY" ↔
      ((pyInStr "Error" s || pyInStr "Failed" s || pyInStr "CrashLoopBackOff" s) = false ∧
       (pyInStr "Completed" s || pyInStr "Terminated" s || pyInStr "Succeeded" s) = true)) ∧
    (GC.get_row_color_for_container_status s = some "RED" ↔
      (s = "Error" ∨ s = "CrashLoopBackOff" ∨ s = "OOMKilled")) ∧
    (GC.get_row_color_for_container_status s = some "GRAY" ↔
      (s = "Completed" ∨ s = "Terminated")) := by
  refine ⟨?_, ?_, ?_, ?_⟩
  · unfold GC.get_row_color_for_pod_status
    generalize pyInStr "Error" s = a
    generalize pyInStr "Failed" s = b
    generalize pyInStr "CrashLoopBackOff" s = c
    generalize pyInStr "Completed" s = d
    generalize pyInStr "Terminated" s = e
    generalize pyInStr "Succeeded" s = f
    revert a b c d e f
    decide
  · unfold GC.get_row_color_for_pod_status
    generalize pyInStr "Error" s = a
    generalize pyInStr "Failed" s = b
    generalize pyInStr "CrashLoopBackOff" s = c
    generalize pyInStr "Completed" s = d
    generalize pyInStr "Terminated" s = e
    generalize pyInStr "Succeeded" s = f
    revert a b c d e f
    decide
  · unfold GC.get_row_color_for_container_status
    split_ifs with h1 h2
    · simp only [Bool.or_eq_true, beq_iff_eq] at h1
      exact iff_of_true rfl (by tauto)
    · simp only [Bool.or_eq_true, beq_iff_eq, not_or] at h1
      exact iff_of_false (by decide) (by tauto)
    · simp only [Bool.or_eq_true, beq_iff_eq, not_or] at h1
      exact iff_of_false (by decide) (by tauto)
  · unfold GC.get_row_color_for_container_status
    split_ifs with h1 h2
    · simp only [Bool.or_eq_true, beq_iff_eq] at h1
      refine iff_of_false (by decide) (fun hx => ?_)
      rcases h1 with (h | h) | h <;> rcases hx with h4 | h4 <;> rw [h] at h4 <;>
        exact absurd h4 (by decide)
    · simp only [Bool.or_eq_true, beq_iff_eq] at h2
      exact iff_of_true rfl (by tauto)
    · simp only [Bool.or_eq_true, beq_iff_eq, not_or] at h2
      exact iff_of_false (by decide) (by tauto)

/-- C5 counterexample: a pod whose status reports more containers than its
spec declares has a ready count exceeding the spec-derived total. -/
theorem c5_ready_count_counterexample :
    ¬ (PP.get_ready_count cexPodOverReported ≤ PP.get_total_containers cexPodOverReported) := by
  decide

/-- C5 amended: the ready count (a natural number, hence at least 0) is
bounded by the number of *status* entries, and bounded by the spec-derived
total whenever each status list is no longer than the corresponding spec
list; the inline ready count of `generate_cache_files.process_pods` equals
the `get_ready_count` of `process_pods.py`. -/
theorem c5_ready_count_amended (pod : Pod) :
    PP.get_ready_count pod ≤
      pod.statusD.initContainerStatuses.length + pod.statusD.containerStatuses.length ∧
    (pod.statusD.initContainerStatuses.length ≤ pod.specD.initContainers.length →
     pod.statusD.containerStatuses.length ≤ pod.specD.containers.length →
     PP.get_ready_count pod ≤ PP.get_total_containers pod) ∧
    GC.readyCountOf pod = PP.get_ready_count pod := by
  have hb : PP.get_ready_count pod ≤
      pod.statusD.initContainerStatuses.length + pod.statusD.containerStatuses.length :=
    Nat.add_le_add (List.countP_le_length _) (List.countP_le_length _)
  refine ⟨hb, fun h1 h2 => ?_, rfl⟩
  exact hb.trans (Nat.add_le_add h1 h2)

theorem c5_ready_count_witness :
    PP.get_ready_count cexPodRunningInit ≤ PP.get_total_containers cexPodRunningInit ∧
    GC.readyCountOf cexPodRunningInit = PP.get_ready_count cexPodRunningInit :=
  ⟨(c5_ready_count_amended cexPodRunningInit).2.1 (by decide) (by decide),
   (c5_ready_count_amended cexPodRunningInit).2.2⟩

/-- C3 counterexample: for a pod created at 0, started at 0 and deleted at
100, `get_pod_age` of `generate_cache_files.py` at `now = 1000` reports
the creation-to-now distance (`"16m40s"`), not the start-to-deletion
lifespan that `get_age` of `process_pods.py` reports (`"1m40s"`). -/
theorem c3_age_counterexample :
    GC.get_pod_age cexPodDeleted 1000 = "16m40s" ∧
    PP.get_age cexPodDeleted 1000 = "1m40s" ∧
    GC.get_pod_age cexPodDeleted 1000 ≠ PP.get_age cexPodDeleted 1000 := by
  decide

/-- C3 amended: only `get_age` of `process_pods.py` implements the
deletion rule — for a deletion-marked pod it formats the start-(or
creation-)to-deletion distance and is independent of `now`; `get_pod_age`
of `generate_cache_files.py` always formats the creation-to-now distance,
deletion marker or not. -/
theorem c3_age_amended (pod : Pod) (now now' d s c : Int) :
    ((pod.metadataD).deletionTimestamp = some d →
      (pod.statusD.startTime <|> (pod.metadataD).creationTimestamp) = some s →
      PP.get_age pod now = PP.format_duration (d - s)) ∧
    ((pod.metadataD).deletionTimestamp.isSome = true →
      PP.get_age pod now = PP.get_age pod now') ∧
    ((pod.metadataD).creationTimestamp = some c →
      GC.get_pod_age pod now = GC.format_duration (now - c)) := by
  refine ⟨fun h1 h2 => ?_, fun h => ?_, fun h => ?_⟩
  · simp [PP.get_age, h1, h2]
  · obtain ⟨d, hd⟩ := Option.isSome_iff_exists.mp h
    simp [PP.get_age, hd]
  · simp [GC.get_pod_age, h]

theorem c3_age_witness :
    PP.get_age cexPodDeleted 1000 = PP.format_duration (100 - 0) ∧
    PP.get_age cexPodDeleted 1000 = PP.get_age cexPodDeleted 2000 ∧
    GC.get_pod_age cexPodDeleted 1000 = GC.format_duration (1000 - 0) :=
  ⟨(c3_age_amended cexPodDeleted 1000 2000 100 0 0).1 (by decide) (by decide),
   (c3_age_amended cexPodDeleted 1000 2000 100 0 0).2.1 (by decide),
   (c3_age_amended cexPodDeleted 1000 2000 100 0 0).2.2 (by decide)⟩

/-- Auxiliary: for a deletion-marked pod the `process_pods.py` line does
not depend on the `now` reference. -/
theorem pp_podLine_now_independent (pod : Pod) (now now' : Int)
    (h : (pod.metadataD).deletionTimestamp.isSome = true) :
    PP.podLine pod now = PP.podLine pod now' := by
  obtain ⟨d, hd⟩ := Option.isSome_iff_exists.mp h
  simp [PP.podLine, PP.get_age, hd]

/-- C4 counterexample: a document whose single pod carries a deletion
marker still produces `now`-dependent output in
`generate_cache_files.process_pods`, refuting that the `now` reference is
only used for the ages of pods *without* a deletion marker. -/
theorem c4_now_dependence_counterexample :
    GC.process_pods cexDataDeleted 1000 ≠ GC.process_pods cexDataDeleted 2000 := by
  decide

/-- C4 amended: both transforms are pure functions of the document and the
single `now` reference, so two runs sharing the same `now` agree exactly;
but only in `process_pods.py` is `now` confined to pods without a deletion
marker (its output on a document of deletion-marked pods is independent of
`now`), while `generate_cache_files.py` uses `now` for every pod with a
creation timestamp. -/
theorem c4_determinism_amended (data : PodList) (now now' : Int) :
    (now = now' →
      PP.process_pods data now = PP.process_pods data now' ∧
      GC.process_pods data now = GC.process_pods data now') ∧
    ((∀ pod ∈ data.items, (pod.metadataD).deletionTimestamp.isSome = true) →
      PP.process_pods data now = PP.process_pods data now') := by
  refine ⟨fun h => by rw [h]; exact ⟨rfl, rfl⟩, fun h => ?_⟩
  unfold PP.process_pods
  exact congrArg (String.intercalate "\n")
    (List.map_congr_left fun pod hp => pp_podLine_now_independent pod now now' (h pod hp))

theorem c4_determinism_witness :
    PP.process_pods cexDataDeleted 1000 = PP.process_pods cexDataDeleted 2000 ∧
    GC.process_pods cexDataDeleted 5 = GC.process_pods cexDataDeleted 5 :=
  ⟨(c4_determinism_amended cexDataDeleted 1000 2000).2 (by decide),
   ((c4_determinism_amended cexDataDeleted 5 5).1 rfl).2⟩

/-- Auxiliary: the dictionary comprehension fails when any status lacks
its `name` key. -/
theorem buildStatusMap_none :
    ∀ l : List ContainerStatus, (∃ s ∈ l, s.name = none) → buildStatusMap l = none := by
  intro l
  induction l with
  | nil => rintro ⟨s, hs, _⟩; cases hs
  | cons s rest ih =>
    rintro ⟨x, hx, hxn⟩
    rcases List.mem_cons.mp hx with rfl | hx'
    · simp [buildStatusMap, hxn]
    · rcases hn : s.name with _ | n
      · simp [buildStatusMap, hn]
      · simp [buildStatusMap, hn, ih ⟨x, hx', hxn⟩]

/-- Auxiliary: the `process_containers.py` init loop fails when any spec
container lacks its `name` key. -/
theorem pc_initLoopRows_none_of_name (pname : String) (smap : List (String × ContainerStatus)) :
    ∀ cs : List ContainerSpec, (∃ c ∈ cs, c.name = none) →
    PC.initLoopRows pname smap cs = none := by
  intro cs
  induction cs with
  | nil => rintro ⟨c, hc, _⟩; cases hc
  | cons c rest ih =>
    rintro ⟨x, hx, hxn⟩
    rcases List.mem_cons.mp hx with rfl | hx'
    · simp [PC.initLoopRows, hxn]
    · have hrest := ih ⟨x, hx', hxn⟩
      rcases hn : c.name with _ | cname
      · simp [PC.initLoopRows, hn]
      · rcases hl : dictGet smap cname with _ | st
        · simpa [PC.initLoopRows, hn, hl] using hrest
        · rcases hi : c.image with _ | img
          · simp [PC.initLoopRows, hn, hl, hi]
          · simp [PC.initLoopRows, hn, hl, hi, hrest]

/-- Auxiliary: the `process_containers.py` init loop fails when a matched
spec container lacks its `image` key. -/
theorem pc_initLoopRows_none_of_image (pname : String) (smap : List (String × ContainerStatus)) :
    ∀ (cs : List ContainerSpec) (c : ContainerSpec) (n : String) (st : ContainerStatus),
    c ∈ cs → c.name = some n → dictGet smap n = some st → c.image = none →
    PC.initLoopRows pname smap cs = none := by
  intro cs
  induction cs with
  | nil => intro c n st hc; cases hc
  | cons c0 rest ih =>
    intro c n st hc hn hl hi
    rcases List.mem_cons.mp hc with rfl | hc'
    · simp [PC.initLoopRows, hn, hl, hi]
    · have hrest := ih c n st hc' hn hl hi
      rcases hn0 : c0.name with _ | cname0
      · simp [PC.initLoopRows, hn0]
      · rcases hl0 : dictGet smap cname0 with _ | st0
        · simpa [PC.initLoopRows, hn0, hl0] using hrest
        · rcases hi0 : c0.image with _ | img0
          · simp [PC.initLoopRows, hn0, hl0, hi0]
          · simp [PC.initLoopRows, hn0, hl0, hi0, hrest]

/-- Auxiliary: the `process_containers.py` regular loop fails when any
spec container lacks its `name` key. -/
theorem pc_regLoopRows_none_of_name (pname : String) (smap : List (String × ContainerStatus)) :
    ∀ cs : List ContainerSpec, (∃ c ∈ cs, c.name = none) →
    PC.regLoopRows pname smap cs = none := by
  intro cs
  induction cs with
  | nil => rintro ⟨c, hc, _⟩; cases hc
  | cons c rest ih =>
    rintro ⟨x, hx, hxn⟩
    rcases List.mem_cons.mp hx with rfl | hx'
    · simp [PC.regLoopRows, hxn]
    · have hrest := ih ⟨x, hx', hxn⟩
      rcases hn : c.name with _ | cname
      · simp [PC.regLoopRows, hn]
      · rcases hl : dictGet smap cname with _ | st
        · simpa [PC.regLoopRows, hn, hl] using hrest
        · rcases hi : c.image with _ | img
          · simp [PC.regLoopRows, hn, hl, hi]
          · simp [PC.regLoopRows, hn, hl, hi, hrest]

/-- Auxiliary: the `process_containers.py` regular loop fails when a
matched spec container lacks its `image` key. -/
theorem pc_regLoopRows_none_of_image (pname : String) (smap : List (String × ContainerStatus)) :
    ∀ (cs : List ContainerSpec) (c : ContainerSpec) (n : String) (st : ContainerStatus),
    c ∈ cs → c.name = some n → dictGet smap n = some st → c.image = none →
    PC.regLoopRows pname smap cs = none := by
  intro cs
  induction cs with
  | nil => intro c n st hc; cases hc
  | cons c0 rest ih =>
    intro c n st hc hn hl hi
    rcases List.mem_cons.mp hc with rfl | hc'
    · simp [PC.regLoopRows, hn, hl, hi]
    · have hrest := ih c n st hc' hn hl hi
      rcases hn0 : c0.name with _ | cname0
      · simp [PC.regLoopRows, hn0]
      · rcases hl0 : dictGet smap cname0 with _ | st0
        · simpa [PC.regLoopRows, hn0, hl0] using hrest
        · rcases hi0 : c0.image with _ | img0
          · simp [PC.regLoopRows, hn0, hl0, hi0]
          · simp [PC.regLoopRows, hn0, hl0, hi0, hrest]

/-- Auxiliary: the `generate_cache_files.py` init-container loop fails
when any spec container lacks its `name` key. -/
theorem gc_initContainersLoop_none_of_name (pname : String)
    (smap : List (String × ContainerStatus)) :
    ∀ cs : List ContainerSpec, (∃ c ∈ cs, c.name = none) →
    GC.initContainersLoop pname smap cs = none := by
  intro cs
  induction cs with
  | nil => rintro ⟨c, hc, _⟩; cases hc
  | cons c rest ih =>
    rintro ⟨x, hx, hxn⟩
    rcases List.mem_cons.mp hx with rfl | hx'
    · simp [GC.initContainersLoop, hxn]
    · have hrest := ih ⟨x, hx', hxn⟩
      rcases hn : c.name with _ | cname
      · simp [GC.initContainersLoop, hn]
      · rcases hl : dictGet smap cname with _ | st
        · simpa [GC.initContainersLoop, hn, hl] using hrest
        · rcases hi : c.image with _ | img
          · simp [GC.initContainersLoop, hn, hl, hi]
          · simp [GC.initContainersLoop, hn, hl, hi, hrest]

/-- Auxiliary: the `generate_cache_files.py` init-container loop fails
when a matched spec container lacks its `image` key. -/
theorem gc_initContainersLoop_none_of_image (pname : String)
    (smap : List (String × ContainerStatus)) :
    ∀ (cs : List ContainerSpec) (c : ContainerSpec) (n : String) (st : ContainerStatus),
    c ∈ cs → c.name = some n → dictGet smap n = some st → c.image = none →
    GC.initContainersLoop pname smap cs = none := by
  intro cs
  induction cs with
  | nil => intro c n st hc; cases hc
  | cons c0 rest ih =>
    intro c n st hc hn hl hi
    rcases List.mem_cons.mp hc with rfl | hc'
    · simp [GC.initContainersLoop, hn, hl, hi]
    · have hrest := ih c n st hc' hn hl hi
      rcases hn0 : c0.name with _ | cname0
      · simp [GC.initContainersLoop, hn0]
      · rcases hl0 : dictGet smap cname0 with _ | st0
        · simpa [GC.initContainersLoop, hn0, hl0] using hrest
        · rcases hi0 : c0.image with _ | img0
          · simp [GC.initContainersLoop, hn0, hl0, hi0]
          · simp [GC.initContainersLoop, hn0, hl0, hi0, hrest]

/-- Auxiliary: the `generate_cache_files.py` regular-container loop fails
when any spec container lacks its `name` key. -/
theorem gc_regContainersLoop_none_of_name (pname : String)
    (smap : List (String × ContainerStatus)) :
    ∀ cs : List ContainerSpec, (∃ c ∈ cs, c.name = none) →
    GC.regContainersLoop pname smap cs = none := by
  intro cs
  induction cs with
  | nil => rintro ⟨c, hc, _⟩; cases hc
  | cons c rest ih =>
    rintro ⟨x, hx, hxn⟩
    rcases List.mem_cons.mp hx with rfl | hx'
    · simp [GC.regContainersLoop, hxn]
    · have hrest := ih ⟨x, hx', hxn⟩
      rcases hn : c.name with _ | cname
      · simp [GC.regContainersLoop, hn]
      · rcases hl : dictGet smap cname with _ | st
        · simpa [GC.regContainersLoop, hn, hl] using hrest
        · rcases hi : c.image with _ | img
          · simp [GC.regContainersLoop, hn, hl, hi]
          · simp [GC.regContainersLoop, hn, hl, hi, hrest]

/-- Auxiliary: the `generate_cache_files.py` regular-container loop fails
when a matched spec container lacks its `image` key. -/
theorem gc_regContainersLoop_none_of_image (pname : String)
    (smap : List (String × ContainerStatus)) :
    ∀ (cs : List ContainerSpec) (c : ContainerSpec) (n : String) (st : ContainerStatus),
    c ∈ cs → c.name = some n → dictGet smap n = some st → c.image = none →
    GC.regContainersLoop pname smap cs = none := by
  intro cs
  induction cs with
  | nil => intro c n st hc; cases hc
  | cons c0 rest ih =>
    intro c n st hc hn hl hi
    rcases List.mem_cons.mp hc with rfl | hc'
    · simp [GC.regContainersLoop, hn, hl, hi]
    · have hrest := ih c n st hc' hn hl hi
      rcases hn0 : c0.name with _ | cname0
      · simp [GC.regContainersLoop, hn0]
      · rcases hl0 : dictGet smap cname0 with _ | st0
        · simpa [GC.regContainersLoop, hn0, hl0] using hrest
        · rcases hi0 : c0.image with _ | img0
          · simp [GC.regContainersLoop, hn0, hl0, hi0]
          · simp [GC.regContainersLoop, hn0, hl0, hi0, hrest]

/-- Auxiliary: `process_init_containers` fails when its status-map
comprehension fails. -/
theorem pc_process_init_none_of_build (pod : Pod)
    (h : buildStatusMap pod.statusD.initContainerStatuses = none) :
    PC.process_init_containers pod = none := by
  rcases hmd : pod.metadata with _ | md
  · simp [PC.process_init_containers, hmd]
  · rcases hnm : md.name with _ | pname
    · simp [PC.process_init_containers, hmd, hnm]
    · simp [PC.process_init_containers, hmd, hnm, h]

/-- Auxiliary: `process_init_containers` fails when its loop fails on the
built status map. -/
theorem pc_process_init_none_of_loopAt (pod : Pod) (smap : List (String × ContainerStatus))
    (hb : buildStatusMap pod.statusD.initContainerStatuses = some smap)
    (h : ∀ pname, PC.initLoopRows pname smap pod.specD.initContainers = none) :
    PC.process_init_containers pod = none := by
  rcases hmd : pod.metadata with _ | md
  · simp [PC.process_init_containers, hmd]
  · rcases hnm : md.name with _ | pname
    · simp [PC.process_init_containers, hmd, hnm]
    · simp [PC.process_init_containers, hmd, hnm, hb, h pname]

/-- Auxiliary: `process_regular_containers` fails when its status-map
comprehension fails. -/
theorem pc_process_reg_none_of_build (pod : Pod)
    (h : buildStatusMap pod.statusD.containerStatuses = none) :
    PC.process_regular_containers pod = none := by
  rcases hmd : pod.metadata with _ | md
  · simp [PC.process_regular_containers, hmd]
  · rcases hnm : md.name with _ | pname
    · simp [PC.process_regular_containers, hmd, hnm]
    · simp [PC.process_regular_containers, hmd, hnm, h]

/-- Auxiliary: `process_regular_containers` fails when its loop fails on
the built status map. -/
theorem pc_process_reg_none_of_loopAt (pod : Pod) (smap : List (String × ContainerStatus))
    (hb : buildStatusMap pod.statusD.containerStatuses = some smap)
    (h : ∀ pname, PC.regLoopRows pname smap pod.specD.containers = none) :
    PC.process_regular_containers pod = none := by
  rcases hmd : pod.metadata with _ | md
  · simp [PC.process_regular_containers, hmd]
  · rcases hnm : md.name with _ | pname
    · simp [PC.process_regular_containers, hmd, hnm]
    · simp [PC.process_regular_containers, hmd, hnm, hb, h pname]

/-- Auxiliary: the per-pod body of `generate_cache_files.py`'s
`process_containers` fails when the init status-map comprehension fails. -/
theorem gc_podContainers_none_of_initBuild (pod : Pod)
    (h : buildStatusMap pod.statusD.initContainerStatuses = none) :
    GC.podContainers pod = none := by
  simp [GC.podContainers, h]

/-- Auxiliary: it also fails when the init-container loop fails. -/
theorem gc_podContainers_none_of_initLoop (pod : Pod)
    (ismap : List (String × ContainerStatus))
    (hb : buildStatusMap pod.statusD.initContainerStatuses = some ismap)
    (h : GC.initContainersLoop ((pod.metadataD).name.getD "unknown") ismap
      pod.specD.initContainers = none) :
    GC.podContainers pod = none := by
  simp [GC.podContainers, hb, h]

/-- Auxiliary: it also fails when the regular status-map comprehension
fails (whatever the init stages did). -/
theorem gc_podContainers_none_of_regBuild (pod : Pod)
    (h : buildStatusMap pod.statusD.containerStatuses = none) :
    GC.podContainers pod = none := by
  rcases hbi : buildStatusMap pod.statusD.initContainerStatuses with _ | ismap
  · simp [GC.podContainers, hbi]
  · rcases hil : GC.initContainersLoop ((pod.metadataD).name.getD "unknown") ismap
        pod.specD.initContainers with _ | irows
    · simp [GC.podContainers, hbi, hil]
    · simp [GC.podContainers, hbi, hil, h]

/-- Auxiliary: it also fails when the regular-container loop fails. -/
theorem gc_podContainers_none_of_regLoop (pod : Pod)
    (csmap : List (String × ContainerStatus))
    (hb : buildStatusMap pod.statusD.containerStatuses = some csmap)
    (h : GC.regContainersLoop ((pod.metadataD).name.getD "unknown") csmap
      pod.specD.containers = none) :
    GC.podContainers pod = none := by
  rcases hbi : buildStatusMap pod.statusD.initContainerStatuses with _ | ismap
  · simp [GC.podContainers, hbi]
  · rcases hil : GC.initContainersLoop ((pod.metadataD).name.getD "unknown") ismap
        pod.specD.initContainers with _ | irows
    · simp [GC.podContainers, hbi, hil]
    · simp [GC.podContainers, hbi, hil, hb, h]

/-- C1 counterexample: a pod record lacking `metadata` makes the
container-row derivation of `process_containers.py` raise `KeyError`
(modelled as `none`) instead of returning a defaulted result. -/
theorem c1_missing_fields_counterexample :
    PC.process_init_containers cexPodNoMetadata = none ∧
    PC.process_regular_containers cexPodNoMetadata = none := by
  decide

/-- C1 amended: the *pod-row* derivations really are total with the
documented defaults (a pod lacking `metadata`, `spec` and `status` yields
name `"unknown"`, counts `0/0`, status `"Unknown"`, age `"0s"`); but the
container-row derivations of `process_containers.py` raise `KeyError`
(modelled as `none`) for any pod lacking `metadata`, and both
container-row derivations raise when a status entry or any spec container
lacks its `name` key, or a matched spec container lacks its `image`
key. -/
theorem c1_missing_fields_amended (pod : Pod) (now : Int) :
    (pod.metadata = none → pod.status = none → pod.spec = none →
      PP.podLine pod now = "unknown\t0/0\tUnknown\t0\t0s" ∧
      GC.podRow pod now =
        [GC.colorize "WHITE" "unknown", GC.colorize "YELLOW" "0/0",
         GC.colorize "YELLOW" "Unknown", GC.colorize "WHITE" "0", "0s"]) ∧
    (pod.metadata = none →
      PC.process_init_containers pod = none ∧ PC.process_regular_containers pod = none) ∧
    ((∃ st ∈ pod.statusD.initContainerStatuses, st.name = none) →
      PC.process_init_containers pod = none ∧ GC.podContainers pod = none) ∧
    ((∃ st ∈ pod.statusD.containerStatuses, st.name = none) →
      PC.process_regular_containers pod = none ∧ GC.podContainers pod = none) ∧
    ((∃ c ∈ pod.specD.initContainers, c.name = none) →
      PC.process_init_containers pod = none ∧ GC.podContainers pod = none) ∧
    ((∃ c ∈ pod.specD.containers, c.name = none) →
      PC.process_regular_containers pod = none ∧ GC.podContainers pod = none) ∧
    (∀ (smap : List (String × ContainerStatus)) (c : ContainerSpec) (n : String)
        (st : ContainerStatus),
      buildStatusMap pod.statusD.initContainerStatuses = some smap →
      c ∈ pod.specD.initContainers → c.name = some n → dictGet smap n = some st →
      c.image = none →
      PC.process_init_containers pod = none ∧ GC.podContainers pod = none) ∧
    (∀ (smap : List (String × ContainerStatus)) (c : ContainerSpec) (n : String)
        (st : ContainerStatus),
      buildStatusMap pod.statusD.containerStatuses = some smap →
      c ∈ pod.specD.containers → c.name = some n → dictGet smap n = some st →
      c.image = none →
      PC.process_regular_containers pod = none ∧ GC.podContainers pod = none) := by
  refine ⟨fun h1 h2 h3 => ?_, fun h => ?_, fun h => ?_, fun h => ?_, fun h => ?_,
    fun h => ?_, fun smap c n st hb hc hn hl hi => ?_, fun smap c n st hb hc hn hl hi => ?_⟩
  · obtain ⟨m, sp, st⟩ := pod
    cases h1; cases h2; cases h3
    exact ⟨rfl, rfl⟩
  · constructor
    · simp [PC.process_init_containers, h]
    · simp [PC.process_regular_containers, h]
  · exact ⟨pc_process_init_none_of_build pod (buildStatusMap_none _ h),
      gc_podContainers_none_of_initBuild pod (buildStatusMap_none _ h)⟩
  · exact ⟨pc_process_reg_none_of_build pod (buildStatusMap_none _ h),
      gc_podContainers_none_of_regBuild pod (buildStatusMap_none _ h)⟩
  · constructor
    · rcases hb : buildStatusMap pod.statusD.initContainerStatuses with _ | smap
      · exact pc_process_init_none_of_build pod hb
      · exact pc_process_init_none_of_loopAt pod smap hb
          (fun pname => pc_initLoopRows_none_of_name pname smap _ h)
    · rcases hb : buildStatusMap pod.statusD.initContainerStatuses with _ | smap
      · exact gc_podContainers_none_of_initBuild pod hb
      · exact gc_podContainers_none_of_initLoop pod smap hb
          (gc_initContainersLoop_none_of_name _ smap _ h)
  · constructor
    · rcases hb : buildStatusMap pod.statusD.containerStatuses with _ | smap
      · exact pc_process_reg_none_of_build pod hb
      · exact pc_process_reg_none_of_loopAt pod smap hb
          (fun pname => pc_regLoopRows_none_of_name pname smap _ h)
    · rcases hb : buildStatusMap pod.statusD.containerStatuses with _ | smap
      · exact gc_podContainers_none_of_regBuild pod hb
      · exact gc_podContainers_none_of_regLoop pod smap hb
          (gc_regContainersLoop_none_of_name _ smap _ h)
  · exact ⟨pc_process_init_none_of_loopAt pod smap hb
      (fun pname => pc_initLoopRows_none_of_image pname smap _ c n st hc hn hl hi),
     gc_podContainers_none_of_initLoop pod smap hb
      (gc_initContainersLoop_none_of_image _ smap _ c n st hc hn hl hi)⟩
  · exact ⟨pc_process_reg_none_of_loopAt pod smap hb
      (fun pname => pc_regLoopRows_none_of_image pname smap _ c n st hc hn hl hi),
     gc_podContainers_none_of_regLoop pod smap hb
      (gc_regContainersLoop_none_of_image _ smap _ c n st hc hn hl hi)⟩

theorem c1_missing_fields_witness :
    PP.podLine ⟨none, none, none⟩ 42 = "unknown\t0/0\tUnknown\t0\t0s" ∧
    PC.process_init_containers cexPodNoMetadata = none ∧
    (PC.process_regular_containers cexPodStatusNoName = none ∧
      GC.podContainers cexPodStatusNoName = none) ∧
    (PC.process_regular_containers cexPodSpecNoImage = none ∧
      GC.podContainers cexPodSpecNoImage = none) :=
  ⟨((c1_missing_fields_amended ⟨none, none, none⟩ 42).1 rfl rfl rfl).1,
   ((c1_missing_fields_amended cexPodNoMetadata 0).2.1 rfl).1,
   (c1_missing_fields_amended cexPodStatusNoName 0).2.2.2.1
     ⟨⟨none, true, 0, none⟩, by simp [cexPodStatusNoName, Pod.statusD], rfl⟩,
   (c1_missing_fields_amended cexPodSpecNoImage 0).2.2.2.2.2.2.2
     [("c", ⟨some "c", true, 0, none⟩)] ⟨some "c", none⟩ "c" ⟨some "c", true, 0, none⟩
     (by decide) (by simp [cexPodSpecNoImage, Pod.specD]) rfl (by decide) rfl⟩

/-- C2 counterexample: an init container whose state is Running (and has a
matching status entry) is reported ready `"true"` by both container-row
derivations, not `"false"` as claimed. -/
theorem c2_init_ready_counterexample :
    PC.process_init_containers cexPodRunningInit =
      some [["p", "ic", "init", "true", "Running", "img"]] ∧
    GC.init_ready ⟨some ⟨true⟩, none, none⟩ = "true" := by
  decide

/-- C2 amended: for a single-variant (well-formed) state, both init
readiness computations agree, and readiness is `"true"` exactly when the
state is a truthy Running variant *or* Terminated with reason
`"Completed"`; so Terminated-with-`"Error"` is `"false"`, but a Running
init container is `"true"`, not `"false"`. -/
theorem c2_init_ready_amended (s : ContainerState) (h : WellFormedState s) :
    PC.init_ready s = GC.init_ready s ∧
    (PC.init_ready s = "true" ↔
      (s.runningTruthy = true ∨ s.terminatedReason = some "Completed")) := by
  obtain ⟨hrw, hwt⟩ := h
  obtain ⟨r, w, t⟩ := s
  rcases r with _ | r
  · rcases w with _ | w
    · rcases t with _ | t
      · simp [PC.init_ready, GC.init_ready, PC.get_container_state_info,
          GC.get_container_state_info, ContainerState.runningTruthy,
          ContainerState.waitingTruthy, ContainerState.terminatedTruthy,
          ContainerState.terminatedReason]
      · obtain ⟨tr, tc, te⟩ := t
        rcases tr with _ | rs
        · rcases htc : (tc.isSome || te) with _ | _ <;>
            simp [PC.init_ready, GC.init_ready, PC.get_container_state_info,
              GC.get_container_state_info, ContainerState.runningTruthy,
              ContainerState.waitingTruthy, ContainerState.terminatedTruthy,
              ContainerState.terminatedReason, TerminatedState.truthy, htc]
        · by_cases hc : rs = "Completed" <;>
            simp [PC.init_ready, GC.init_ready, PC.get_container_state_info,
              GC.get_container_state_info, ContainerState.runningTruthy,
              ContainerState.waitingTruthy, ContainerState.terminatedTruthy,
              ContainerState.terminatedReason, TerminatedState.truthy, hc]
    · have ht : t = none := hwt (by simp)
      subst ht
      rcases hwr : w.truthy with _ | _ <;>
        simp [PC.init_ready, GC.init_ready, PC.get_container_state_info,
          GC.get_container_state_info, ContainerState.runningTruthy,
          ContainerState.waitingTruthy, ContainerState.terminatedTruthy,
          ContainerState.terminatedReason, hwr]
  · obtain ⟨hw, ht⟩ := hrw (by simp)
    subst hw; subst ht
    rcases hrt : r.truthy with _ | _ <;>
      simp [PC.init_ready, GC.init_ready, PC.get_container_state_info,
        GC.get_container_state_info, ContainerState.runningTruthy,
        ContainerState.waitingTruthy, ContainerState.terminatedTruthy,
        ContainerState.terminatedReason, hrt]

theorem c2_init_ready_witness :
    (PC.init_ready ⟨none, none, some ⟨some "Error", some 1, false⟩⟩ =
       GC.init_ready ⟨none, none, some ⟨some "Error", some 1, false⟩⟩) ∧
    (PC.init_ready ⟨none, none, some ⟨some "Error", some 1, false⟩⟩ = "true" ↔
      ((ContainerState.mk none none (some ⟨some "Error", some 1, false⟩)).runningTruthy = true ∨
       (ContainerState.mk none none (some ⟨some "Error", some 1, false⟩)).terminatedReason =
         some "Completed")) :=
  c2_init_ready_amended ⟨none, none, some ⟨some "Error", some 1, false⟩⟩
    (by unfold WellFormedState; decide)

/-- Auxiliary: every row produced by the regular-container loop of
`process_containers.py` comes from a spec container (with its `name` and
`image`) and the status entry matched to it by name in the status map,
taking its readiness cell from that status's `ready` flag and its state
cell from `get_container_state_info`. -/
theorem pc_regLoopRows_shape (pname : String) (smap : List (String × ContainerStatus)) :
    ∀ (cs : List ContainerSpec) (rows : List (List String)) (row : List String),
    PC.regLoopRows pname smap cs = some rows → row ∈ rows →
    ∃ (c : ContainerSpec) (cname img : String) (st : ContainerStatus),
      c ∈ cs ∧ c.name = some cname ∧ c.image = some img ∧ dictGet smap cname = some st ∧
      row = [pname, cname, "container", pyBoolStr st.ready,
        (PC.get_container_state_info st.stateD).2, img] := by
  intro cs
  induction cs with
  | nil =>
    intro rows row h hm
    simp only [PC.regLoopRows, Option.some.injEq] at h
    subst h
    cases hm
  | cons c rest ih =>
    intro rows row h hm
    rcases hn : c.name with _ | cname
    · simp [PC.regLoopRows, hn] at h
    · rcases hl : dictGet smap cname with _ | st
      · simp [PC.regLoopRows, hn, hl] at h
        obtain ⟨c0, cname0, img0, st0, hc0, rest0⟩ := ih rows row h hm
        exact ⟨c0, cname0, img0, st0, List.mem_cons_of_mem c hc0, rest0⟩
      · rcases hi : c.image with _ | img
        · simp [PC.regLoopRows, hn, hl, hi] at h
        · rcases hr : PC.regLoopRows pname smap rest with _ | rows'
          · simp [PC.regLoopRows, hn, hl, hi, hr] at h
          · simp [PC.regLoopRows, hn, hl, hi, hr] at h
            subst h
            rcases List.mem_cons.mp hm with rfl | hm'
            · exact ⟨c, cname, img, st, List.mem_cons_self c rest, hn, hi, hl, rfl⟩
            · obtain ⟨c0, cname0, img0, st0, hc0, rest0⟩ := ih rows' row hr hm'
              exact ⟨c0, cname0, img0, st0, List.mem_cons_of_mem c hc0, rest0⟩

/-- Auxiliary: the same inversion for the regular-container loop of
`generate_cache_files.py`'s `process_containers`: every emitted row is the
colored row of a spec container and the status entry matched to it by
name. -/
theorem gc_regContainersLoop_shape (pname : String) (smap : List (String × ContainerStatus)) :
    ∀ (cs : List ContainerSpec) (rows : List (List String)) (row : List String),
    GC.regContainersLoop pname smap cs = some rows → row ∈ rows →
    ∃ (c : ContainerSpec) (cname img : String) (st : ContainerStatus),
      c ∈ cs ∧ c.name = some cname ∧ c.image = some img ∧ dictGet smap cname = some st ∧
      row = GC.regRowColored pname cname img st := by
  intro cs
  induction cs with
  | nil =>
    intro rows row h hm
    simp only [GC.regContainersLoop, Option.some.injEq] at h
    subst h
    cases hm
  | cons c rest ih =>
    intro rows row h hm
    rcases hn : c.name with _ | cname
    · simp [GC.regContainersLoop, hn] at h
    · rcases hl : dictGet smap cname with _ | st
      · simp [GC.regContainersLoop, hn, hl] at h
        obtain ⟨c0, cname0, img0, st0, hc0, rest0⟩ := ih rows row h hm
        exact ⟨c0, cname0, img0, st0, List.mem_cons_of_mem c hc0, rest0⟩
      · rcases hi : c.image with _ | img
        · simp [GC.regContainersLoop, hn, hl, hi] at h
        · rcases hr : GC.regContainersLoop pname smap rest with _ | rows'
          · simp [GC.regContainersLoop, hn, hl, hi, hr] at h
          · simp [GC.regContainersLoop, hn, hl, hi, hr] at h
            subst h
            rcases List.mem_cons.mp hm with rfl | hm'
            · exact ⟨c, cname, img, st, List.mem_cons_self c rest, hn, hi, hl, rfl⟩
            · obtain ⟨c0, cname0, img0, st0, hc0, rest0⟩ := ih rows' row hr hm'
              exact ⟨c0, cname0, img0, st0, List.mem_cons_of_mem c hc0, rest0⟩

/-- C8: each regular-container row is generated from a spec container and
*the status entry matched to it by name*, with the readiness cell equal to
that status's own `ready` flag rendered `"true"`/`"false"` and the state
cell equal to the state-variant label: (1) in `process_containers.py`,
every emitted row has exactly this shape with the status obtained from the
pod's own status map; (2) in `generate_cache_files.py`, every row of the
per-pod body is either an init-loop row or the colored regular row of a
name-matched status entry; (3) the colored regular row carries the `ready`
flag in its readiness cell and the state-rule label in its state cell,
wrapped only in color codes; (4) in particular a ready-flagged container
in a Waiting state yields row data with readiness `"true"` and the waiting
reason as its label. -/
theorem c8_regular_readiness :
    (∀ (pod : Pod) (rows : List (List String)) (row : List String),
      PC.process_regular_containers pod = some rows → row ∈ rows →
      ∃ (md : Metadata) (pname : String) (smap : List (String × ContainerStatus))
        (c : ContainerSpec) (cname img : String) (st : ContainerStatus),
        pod.metadata = some md ∧ md.name = some pname ∧
        buildStatusMap pod.statusD.containerStatuses = some smap ∧
        c ∈ pod.specD.containers ∧ c.name = some cname ∧ c.image = some img ∧
        dictGet smap cname = some st ∧
        row = [pname, cname, "container", pyBoolStr st.ready,
          (PC.get_container_state_info st.stateD).2, img]) ∧
    (∀ (pod : Pod) (rows : List (List String)) (row : List String),
      GC.podContainers pod = some rows → row ∈ rows →
      (∃ (ismap : List (String × ContainerStatus)) (irows : List (List String)),
        buildStatusMap pod.statusD.initContainerStatuses = some ismap ∧
        GC.initContainersLoop ((pod.metadataD).name.getD "unknown") ismap
          pod.specD.initContainers = some irows ∧ row ∈ irows) ∨
      (∃ (csmap : List (String × ContainerStatus)) (c : ContainerSpec)
        (cname img : String) (st : ContainerStatus),
        buildStatusMap pod.statusD.containerStatuses = some csmap ∧
        c ∈ pod.specD.containers ∧ c.name = some cname ∧ c.image = some img ∧
        dictGet csmap cname = some st ∧
        row = GC.regRowColored ((pod.metadataD).name.getD "unknown") cname img st)) ∧
    (∀ (pname cname img : String) (st : ContainerStatus),
      ∃ a b a2 b2 : String,
        (GC.regRowColored pname cname img st)[2]? = some (a ++ pyBoolStr st.ready ++ b) ∧
        (GC.regRowColored pname cname img st)[3]? =
          some (a2 ++ (GC.get_container_state_info st.stateD).2 ++ b2)) ∧
    (∀ (pname cname img r : String) (extra : Bool) (st : ContainerStatus),
      st.ready = true → st.state = some ⟨none, some ⟨some r, extra⟩, none⟩ →
      GC.regRowData pname cname img st = [pname, cname, "true", r, img]) := by
  refine ⟨?_, ?_, ?_, ?_⟩
  · intro pod rows row h hm
    rcases hmd : pod.metadata with _ | md
    · simp [PC.process_regular_containers, hmd] at h
    · rcases hnm : md.name with _ | pname
      · simp [PC.process_regular_containers, hmd, hnm] at h
      · rcases hsm : buildStatusMap pod.statusD.containerStatuses with _ | smap
        · simp [PC.process_regular_containers, hmd, hnm, hsm] at h
        · simp [PC.process_regular_containers, hmd, hnm, hsm] at h
          obtain ⟨c, cname, img, st, hc, hn, hi, hl, heq⟩ :=
            pc_regLoopRows_shape pname smap pod.specD.containers rows row h hm
          exact ⟨md, pname, smap, c, cname, img, st, rfl, hnm, rfl, hc, hn, hi, hl, heq⟩
  · intro pod rows row h hm
    rcases hbi : buildStatusMap pod.statusD.initContainerStatuses with _ | ismap
    · simp [GC.podContainers, hbi] at h
    · rcases hil : GC.initContainersLoop ((pod.metadataD).name.getD "unknown") ismap
          pod.specD.initContainers with _ | irows
      · simp [GC.podContainers, hbi, hil] at h
      · rcases hbc : buildStatusMap pod.statusD.containerStatuses with _ | csmap
        · simp [GC.podContainers, hbi, hil, hbc] at h
        · rcases hcl : GC.regContainersLoop ((pod.metadataD).name.getD "unknown") csmap
              pod.specD.containers with _ | crows
          · simp [GC.podContainers, hbi, hil, hbc, hcl] at h
          · simp [GC.podContainers, hbi, hil, hbc, hcl] at h
            subst h
            rcases List.mem_append.mp hm with hmi | hmc
            · exact Or.inl ⟨ismap, irows, rfl, hil, hmi⟩
            · obtain ⟨c, cname, img, st, hc, hn, hi, hl, heq⟩ :=
                gc_regContainersLoop_shape _ csmap pod.specD.containers crows row hcl hmc
              exact Or.inr ⟨csmap, c, cname, img, st, rfl, hc, hn, hi, hl, heq⟩
  · intro pname cname img st
    rcases hc : GC.get_row_color_for_container_status
        ((GC.get_container_state_info st.stateD).2) with _ | color
    · exact ⟨GC.COLORS (if pyBoolStr st.ready == "true" then "GREEN" else "RED"),
        GC.COLORS "RESET",
        GC.COLORS (if (GC.get_container_state_info st.stateD).2 == "Running"
          then "GREEN" else "YELLOW"), GC.COLORS "RESET",
        by simp [GC.regRowColored, GC.regRowData, GC.colorize, hc],
        by simp [GC.regRowColored, GC.regRowData, GC.colorize, hc]⟩
    · exact ⟨GC.COLORS color, GC.COLORS "RESET", GC.COLORS color, GC.COLORS "RESET",
        by simp [GC.regRowColored, GC.regRowData, GC.colorize_entire_row, hc],
        by simp [GC.regRowColored, GC.regRowData, GC.colorize_entire_row, hc]⟩
  · intro pname cname img r extra st h1 h2
    simp [GC.regRowData, GC.get_container_state_info, ContainerStatus.stateD, h1, h2,
      pyBoolStr, ContainerState.runningTruthy, ContainerState.waitingTruthy,
      ContainerState.waitingReason, WaitingState.truthy]

theorem c8_regular_readiness_witness :
    (∃ (md : Metadata) (pname : String) (smap : List (String × ContainerStatus))
      (c : ContainerSpec) (cname img : String) (st : ContainerStatus),
      cexPodReadyWaiting.metadata = some md ∧ md.name = some pname ∧
      buildStatusMap cexPodReadyWaiting.statusD.containerStatuses = some smap ∧
      c ∈ cexPodReadyWaiting.specD.containers ∧ c.name = some cname ∧ c.image = some img ∧
      dictGet smap cname = some st ∧
      (["p", "c", "container", "true", "ImagePullBackOff", "img"] : List String) =
        [pname, cname, "container", pyBoolStr st.ready,
         (PC.get_container_state_info st.stateD).2, img]) ∧
    ((∃ (ismap : List (String × ContainerStatus)) (irows : List (List String)),
        buildStatusMap cexPodReadyWaiting.statusD.initContainerStatuses = some ismap ∧
        GC.initContainersLoop ((cexPodReadyWaiting.metadataD).name.getD "unknown") ismap
          cexPodReadyWaiting.specD.initContainers = some irows ∧
        GC.regRowColored "p" "c" "img"
          ⟨some "c", true, 0, some ⟨none, some ⟨some "ImagePullBackOff", false⟩, none⟩⟩
          ∈ irows) ∨
      (∃ (csmap : List (String × ContainerStatus)) (c : ContainerSpec)
        (cname img : String) (st : ContainerStatus),
        buildStatusMap cexPodReadyWaiting.statusD.containerStatuses = some csmap ∧
        c ∈ cexPodReadyWaiting.specD.containers ∧ c.name = some cname ∧
        c.image = some img ∧ dictGet csmap cname = some st ∧
        GC.regRowColored "p" "c" "img"
          ⟨some "c", true, 0, some ⟨none, some ⟨some "ImagePullBackOff", false⟩, none⟩⟩ =
        GC.regRowColored ((cexPodReadyWaiting.metadataD).name.getD "unknown") cname img st)) ∧
    GC.regRowData "p" "c" "img"
      ⟨some "c", true, 0, some ⟨none, some ⟨some "ImagePullBackOff", false⟩, none⟩⟩ =
      ["p", "c", "true", "ImagePullBackOff", "img"] :=
  ⟨c8_regular_readiness.1 cexPodReadyWaiting
      [["p", "c", "container", "true", "ImagePullBackOff", "img"]]
      ["p", "c", "container", "true", "ImagePullBackOff", "img"] (by decide) (by simp),
   c8_regular_readiness.2.1 cexPodReadyWaiting
      [GC.regRowColored "p" "c" "img"
        ⟨some "c", true, 0, some ⟨none, some ⟨some "ImagePullBackOff", false⟩, none⟩⟩]
      (GC.regRowColored "p" "c" "img"
        ⟨some "c", true, 0, some ⟨none, some ⟨some "ImagePullBackOff", false⟩, none⟩⟩)
      (by decide) (by simp),
   c8_regular_readiness.2.2.2 "p" "c" "img" "ImagePullBackOff" false
      ⟨some "c", true, 0, some ⟨none, some ⟨some "ImagePullBackOff", false⟩, none⟩⟩ rfl rfl⟩

/-- Auxiliary: the init-container loops of the two `get_pod_status`
variants agree on every status list. -/
theorem initLoop_eq_variants :
    ∀ (l : List ContainerStatus) (total i : Nat), PP.initLoop total i l = GC.initLoop total i l := by
  intro l
  induction l with
  | nil => intro total i; rfl
  | cons c rest ih =>
    intro total i
    unfold PP.initLoop GC.initLoop
    rcases hw : c.stateD.waiting with _ | w
    · rcases ht : c.stateD.terminated with _ | t
      · simp only [hw, ht]
        exact ih total (i + 1)
      · rcases htr : t.reason with _ | rs
        · simp [hw, ht, htr]
        · by_cases hc : rs = "Completed"
          · subst hc
            simp only [hw, ht, htr]
            simpa using ih total (i + 1)
          · simp [hw, ht, htr, hc]
    · simp only [hw]
      by_cases hp : w.reason.getD "PodInitializing" = "PodInitializing" <;> simp [hp]

/-- Auxiliary: the regular-container loops of the two `get_pod_status`
variants agree whenever no state combines a `running` key with a `waiting`
or `terminated` key. -/
theorem regLoop_eq_variants :
    ∀ l : List ContainerStatus,
    (∀ c ∈ l, c.stateD.running.isSome = true →
      c.stateD.waiting = none ∧ c.stateD.terminated = none) →
    PP.regLoop l = GC.regLoop l := by
  intro l
  induction l with
  | nil => intro _; rfl
  | cons c rest ih =>
    intro H
    have Hrest : ∀ x ∈ rest, x.stateD.running.isSome = true →
        x.stateD.waiting = none ∧ x.stateD.terminated = none :=
      fun x hx => H x (List.mem_cons_of_mem c hx)
    unfold PP.regLoop GC.regLoop
    by_cases hr : c.stateD.running.isSome = true
    · obtain ⟨hw, ht⟩ := H c (List.mem_cons_self c rest) hr
      simp only [hr, if_true, hw, ht]
      exact ih Hrest
    · simp only [Bool.not_eq_true] at hr
      simp only [hr, Bool.false_eq_true, if_false]
      rcases hw : c.stateD.waiting with _ | w
      · rcases ht : c.stateD.terminated with _ | t
        · simpa using ih Hrest
        · by_cases he : t.exitCode.getD 1 = 0
          · simp only [he]
            simpa using ih Hrest
          · simp [he]
      · rcases hwr : w.reason with _ | r
        · simp only [hwr]
          exact ih Hrest
        · by_cases he : r = ""
          · subst he
            simp only [hwr]
            simpa using ih Hrest
          · simp [hwr, he]

/-- C10 counterexample: on a pod whose container status state populates
both `running` and `waiting`, the `process_pods.py` variant (which checks
`running` first) answers `"NotReady"` while the `generate_cache_files.py`
variant (which checks `waiting` first) answers `"ImagePullBackOff"`. -/
theorem c10_pod_status_counterexample :
    PP.get_pod_status cexPodTwoVariants ≠ GC.get_pod_status cexPodTwoVariants := by
  decide

/-- C10 amended: the two `get_pod_status` variants agree on every pod in
which no regular-container status state combines a populated `running`
variant with a `waiting` or `terminated` variant (in particular on every
pod whose states populate at most one variant). -/
theorem c10_pod_status_amended (pod : Pod)
    (H : ∀ c ∈ pod.statusD.containerStatuses, c.stateD.running.isSome = true →
      c.stateD.waiting = none ∧ c.stateD.terminated = none) :
    PP.get_pod_status pod = GC.get_pod_status pod := by
  unfold PP.get_pod_status GC.get_pod_status
  by_cases hd : (pod.metadataD).deletionTimestamp.isSome = true
  · simp [hd]
  · simp only [Bool.not_eq_true] at hd
    simp only [hd, Bool.false_eq_true, if_false]
    rw [initLoop_eq_variants, regLoop_eq_variants _ H]
    rcases hi : GC.initLoop pod.statusD.initContainerStatuses.length 0
        pod.statusD.initContainerStatuses with _ | st
    · simp only [hi]
      by_cases he : (pod.statusD.containerStatuses.isEmpty
          && (pod.statusD.phase.getD "Unknown" == "Pending")) = true
      · simp only [he, if_true]
        rw [Bool.and_eq_true] at he
        have hcs : pod.statusD.containerStatuses = [] := List.isEmpty_iff.mp he.1
        have hph : pod.statusD.phase.getD "Unknown" = "Pending" := by
          simpa using he.2
        rw [hcs, hph]
        rfl
      · simp only [he, Bool.false_eq_true, if_false]
    · simp only [hi]

theorem c10_pod_status_witness :
    PP.get_pod_status cexPodReadyWaiting = GC.get_pod_status cexPodReadyWaiting :=
  c10_pod_status_amended cexPodReadyWaiting (by decide)

end Kgp
